import Mathlib

/-!
Shallow embedding of the request-lifecycle layer of the TensorRT-LLM backend:
topology configuration (`GetExecutorConfig`), request submission
(`TensorRtLlmBackend.Submit` and the FFI wrapper `TensorRtLlmBackendImpl.Submit`)
and the response-streaming pumps (`TensorRtLlmBackend.Stream`,
`TensorRtLlmBackendImpl.StreamTokens`).

Machine scalars are modelled as `Nat`/`Int` with explicit reductions where the
code truncates; the two 32-bit float scalars that appear (`topP`, `temperature`,
and the constant scores 0.0 / 1.0) are carried as exact rationals, since the
code performs no floating-point arithmetic on them, only moves them around.
-/

/-- tle::CommunicationMode. -/
inductive CommunicationMode where
  | kLEADER
  | kORCHESTRATOR
deriving DecidableEq

/-- tle::CommunicationType; only kMPI appears at the call sites. -/
inductive CommunicationType where
  | kMPI
deriving DecidableEq

/-- tle::OrchestratorConfig(spawnProcesses, workerExecutablePath). -/
structure OrchestratorConfig where
  spawnProcesses : Bool
  workerExecutablePath : String
deriving DecidableEq

/-- tle::ParallelConfig as constructed in GetExecutorConfig: communication type,
communication mode, then three optionals (device ids, participant ids,
orchestrator configuration), of which only the last is ever set. -/
structure ParallelConfig where
  commType : CommunicationType
  commMode : CommunicationMode
  deviceIds : Option (List Nat)
  participantIds : Option (List Nat)
  orchestratorConfig : Option OrchestratorConfig
deriving DecidableEq

/-- tle::KvCacheConfig; the single boolean passed at the call site is the
KV-cache-enabled flag. -/
structure KvCacheConfig where
  enabled : Bool
deriving DecidableEq

/-- tle::ExecutorConfig after GetExecutorConfig has run: constructed as
ExecutorConfig(1) and then all three setters are executed unconditionally on
every path, so the three set fields are modelled directly. -/
structure ExecutorConfig where
  maxBeamWidth : Nat
  parallelConfig : ParallelConfig
  kvCacheConfig : KvCacheConfig
  enableChunkedContext : Bool
deriving DecidableEq

/-- The parsed model-metadata document, reduced to the one field
GetExecutorConfig reads: the integer at /pretrained_config/mapping/world_size.
The interface documents it as an integer greater than or equal to 1. -/
structure EngineJson where
  world_size : Nat
deriving DecidableEq

/-- The json read of the world_size field with unsigned 8-bit target type: the
library static_casts the stored integer to uint8_t, i.e. reduces it modulo
256. -/
def readWorldSize (config : EngineJson) : Nat :=
  config.world_size % 256

/-- Outcome of the nvml compute-capability probe in GetExecutorConfig
(backend.cpp lines 18-25): `none` when either nvml call fails, in which case
both capability variables keep their initialization value 0. -/
def capabilityMajor (detected : Option (Int × Int)) : Int :=
  match detected with
  | some mm => mm.1
  | none => 0

/-- GetExecutorConfig (backend.cpp lines 14-52): derive the executor
configuration from the metadata document, the worker path and the detected
compute capability. -/
def GetExecutorConfig (config : EngineJson) (workerPath : String)
    (detected : Option (Int × Int)) : ExecutorConfig :=
  let cudaComputeCapabilitiesMajor := capabilityMajor detected
  let parallel :=
    if readWorldSize config = 1 then
      ParallelConfig.mk CommunicationType.kMPI CommunicationMode.kLEADER none none none
    else
      ParallelConfig.mk CommunicationType.kMPI CommunicationMode.kORCHESTRATOR none none
        (some (OrchestratorConfig.mk true workerPath))
  { maxBeamWidth := 1
    parallelConfig := parallel
    kvCacheConfig := KvCacheConfig.mk true
    enableChunkedContext := decide (8 ≤ cudaComputeCapabilitiesMajor) }

/-- tle::SamplingConfig with the thirteen constructor parameters in source
order as passed at backend.cpp lines 87-101. -/
structure SamplingConfig where
  beamWidth : Nat
  topK : Option Int
  topP : Option ℚ
  topPMin : Option ℚ
  topPResetIds : Option Int
  topPDecay : Option ℚ
  seed : Option Nat
  temperature : Option ℚ
  minLength : Option Int
  beamSearchDiversityRate : Option ℚ
  repetitionPenalty : Option ℚ
  presencePenalty : Option ℚ
  frequencyPenalty : Option ℚ
deriving DecidableEq

/-- tle::OutputConfig as used at backend.cpp line 102; the three positional
booleans are named after what they govern: log-probabilities, full output-ids
arrays, per-step top-alternatives. -/
structure OutputConfig where
  returnLogProbs : Bool
  returnFullOutputIds : Bool
  perStepTopAlternatives : Bool
deriving DecidableEq

/-- tle::Request{tokens, maxNewTokens, streaming, sampling, output} as built at
backend.cpp line 103. -/
structure Request where
  tokens : List Int
  maxNewTokens : Int
  streaming : Bool
  samplingConfig : SamplingConfig
  outputConfig : OutputConfig
deriving DecidableEq

namespace TensorRtLlmBackend

/-- TensorRtLlmBackend::Submit (backend.cpp lines 69-106): assembles the
sampling and output configuration and hands the request to
executor.enqueueRequest on line 105. No branch in the body avoids the enqueue,
so the function is modelled as returning the request that is enqueued. -/
def Submit (tokens : List Int) (maxNewTokens : Int) (topK : Int) (topP : ℚ)
    (temperature : ℚ) (minLength : Int)
    (repetitionPenalty frequencyPenalty : Option ℚ)
    (seed nTopTokens : Option Nat) : Request :=
  { tokens := tokens
    maxNewTokens := maxNewTokens
    streaming := true
    samplingConfig :=
      { beamWidth := 1
        topK := some topK
        topP := some topP
        topPMin := none
        topPResetIds := none
        topPDecay := none
        seed := seed
        temperature := some temperature
        minLength := some minLength
        beamSearchDiversityRate := none
        repetitionPenalty := repetitionPenalty
        presencePenalty := none
        frequencyPenalty := frequencyPenalty }
    outputConfig :=
      { returnLogProbs := false
        returnFullOutputIds := false
        perStepTopAlternatives := decide (1 < nTopTokens.getD 1) } }

end TensorRtLlmBackend

/-- One engine response for a request id: an error record carrying a message,
or a successful decode record. The decode record carries
outputTokenIds[0][0] — the first token of the first candidate, which the
engine guarantees to be present — and the end-of-generation flag. -/
inductive Response where
  | error (msg : String)
  | result (token : Nat) (isFinal : Bool)
deriving DecidableEq

/-- True on a successful decode record. -/
def Response.isSuccess : Response → Bool
  | .error _ => false
  | .result _ _ => true

/-- True on a response that the spec calls terminal: an error, or a decode
record whose end-of-generation flag is set. -/
def Response.isTerminal : Response → Bool
  | .error _ => true
  | .result _ f => f

namespace TensorRtLlmBackend

/-- One iteration of the response loop body of Stream (backend.cpp lines
114-129) acting on (isFinal, generatedTokens, tokens delivered through cb):
an error sets isFinal to true and invokes no callback; a decode record
overwrites isFinal with the response flag, increments generatedTokens and
invokes cb(token). -/
def streamStep (st : Bool × Nat × List Nat) (response : Response) :
    Bool × Nat × List Nat :=
  match response with
  | .error _ => (true, st.2.1, st.2.2)
  | .result token isFinal => (isFinal, st.2.1 + 1, st.2.2 ++ [token])

/-- The do-while of Stream (backend.cpp lines 112-131): consume one awaited
batch per iteration and stop once isFinal holds after a batch; `none` models
the call blocking forever because the engine never yields the next batch. -/
def streamGo : List (List Response) → Bool × Nat × List Nat → Option (Nat × List Nat)
  | [], _ => none
  | batch :: rest, st =>
    let st1 := batch.foldl streamStep st
    if st1.1 then some st1.2 else streamGo rest st1

/-- TensorRtLlmBackend::Stream (backend.cpp lines 108-135) over the batches
that executor.awaitResponses yields for the request id: returns the
generated-token count together with the sequence of cb invocations, or `none`
when the loop never terminates on the given batches. -/
def Stream (batches : List (List Response)) : Option (Nat × List Nat) :=
  streamGo batches (false, 0, [])

end TensorRtLlmBackend

/-- One callback invocation of StreamTokens: (tokenId, score, isFinal). The
GenerationContext pointer, forwarded unchanged on every invocation, is
omitted. -/
structure CallbackInvocation where
  tokenId : Nat
  score : ℚ
  isFinal : Bool
deriving DecidableEq

/-- The callback invocation StreamTokens performs for one response: a decode
record yields callback(ctx, token, 1.0, isFinal), an error yields the sentinel
callback(ctx, 0, 0.0, true). -/
def respInvocation : Response → CallbackInvocation
  | .error _ => CallbackInvocation.mk 0 0 true
  | .result t f => CallbackInvocation.mk t 1 f

namespace TensorRtLlmBackendImpl

/-- Loop body of StreamTokens (part_000 lines 40-59) acting on (numTokens,
invocations so far): a decode record invokes callback(ctx, token, 1.0, isFinal)
and increments numTokens; an error invokes callback(ctx, 0, 0.0, true) and
leaves numTokens unchanged. The loop never breaks early. -/
def streamTokensStep (st : Nat × List CallbackInvocation) (item : Response) :
    Nat × List CallbackInvocation :=
  match item with
  | .error _ => (st.1, st.2 ++ [CallbackInvocation.mk 0 0 true])
  | .result token isFinal => (st.1 + 1, st.2 ++ [CallbackInvocation.mk token 1 isFinal])

/-- TensorRtLlmBackendImpl::StreamTokens (part_000 lines 34-62) on the batch
returned by the single Poll(requestId): returns numTokens together with the
callback invocation sequence. -/
def StreamTokens (batch : List Response) : Nat × List CallbackInvocation :=
  batch.foldl streamTokensStep (0, [])

end TensorRtLlmBackendImpl

/-- The response sequence of an error-free stream: N non-final decode records
followed by one final decode record. -/
def successStream (toks : List Nat) (finalTok : Nat) : List Response :=
  toks.map (fun t => Response.result t false) ++ [Response.result finalTok true]

/-- The submission failure taxonomy of the spec, one case per input
constraint named by C1. -/
inductive SubmissionError where
  | emptyTokens
  | nonPositiveMaxNewTokens
  | topPOutOfRange
  | nonPositiveTemperature
deriving DecidableEq

/-- Modelled from the spec: the validating Request Submission Gateway of
section 4.3, which no source file implements; arguments violating the input
constraints (empty token sequence, non-positive maxNewTokens, topP outside
[0,1], non-positive temperature) are rejected with a SubmissionError before
the request reaches the engine, and otherwise the assembled request is
enqueued. -/
def SubmitChecked (tokens : List Int) (maxNewTokens : Int) (topK : Int) (topP : ℚ)
    (temperature : ℚ) (minLength : Int)
    (repetitionPenalty frequencyPenalty : Option ℚ)
    (seed nTopTokens : Option Nat) : Except SubmissionError Request :=
  if tokens = [] then Except.error SubmissionError.emptyTokens
  else if maxNewTokens ≤ 0 then Except.error SubmissionError.nonPositiveMaxNewTokens
  else if topP < 0 ∨ 1 < topP then Except.error SubmissionError.topPOutOfRange
  else if temperature ≤ 0 then Except.error SubmissionError.nonPositiveTemperature
  else Except.ok (TensorRtLlmBackend.Submit tokens maxNewTokens topK topP temperature
    minLength repetitionPenalty frequencyPenalty seed nTopTokens)

/-- True when a submission outcome is a rejection. -/
def isRejected : Except SubmissionError Request → Bool
  | .error _ => true
  | .ok _ => false

/-- Modelled from the spec: the declaration of TensorRtLlmBackend::Submit lives
in backend.h, which is not among the sources; the five-argument call in
TensorRtLlmBackendImpl::Submit compiles only because parameters six to ten
(minLength and the four optionals) carry default arguments there, so those
defaults are kept abstract. -/
structure SubmitDefaults where
  minLength : Int
  repetitionPenalty : Option ℚ
  frequencyPenalty : Option ℚ
  seed : Option Nat
  nTopTokens : Option Nat

/-- The C++ conversion from float to int32_t: truncation toward zero
(conversion of an out-of-range value is undefined behaviour and not
modelled). -/
def floatToInt32 (x : ℚ) : Int :=
  if 0 ≤ x then ⌊x⌋ else ⌈x⌉

namespace TensorRtLlmBackendImpl

/-- TensorRtLlmBackendImpl::Submit (part_000 lines 26-32): forwards
(tokens, topK, topP, temperature, seed) positionally into the ten-parameter
TensorRtLlmBackend::Submit, so topK lands in the maxNewTokens parameter,
topP (converted float to int32) in topK, temperature in topP and seed
(converted uint64 to float; the float rounding of huge values is not
modelled) in temperature. -/
def Submit (d : SubmitDefaults) (tokens : List Int) (topK : Int) (topP : ℚ)
    (temperature : ℚ) (seed : Nat) : Request :=
  TensorRtLlmBackend.Submit tokens topK (floatToInt32 topP) temperature
    ((seed : ℚ)) d.minLength d.repetitionPenalty d.frequencyPenalty d.seed d.nTopTokens

end TensorRtLlmBackendImpl

lemma foldl_streamTokensStep (batch : List Response) (n : Nat)
    (acc : List CallbackInvocation) :
    batch.foldl TensorRtLlmBackendImpl.streamTokensStep (n, acc) =
      (n + (batch.filter Response.isSuccess).length, acc ++ batch.map respInvocation) := by
  induction batch generalizing n acc with
  | nil => simp
  | cons r rs ih =>
    cases r with
    | error m =>
      simp [TensorRtLlmBackendImpl.streamTokensStep, ih, Response.isSuccess,
        respInvocation, List.filter_cons]
    | result t f =>
      simp [TensorRtLlmBackendImpl.streamTokensStep, ih, Response.isSuccess,
        respInvocation, List.filter_cons, Nat.add_comm, Nat.add_assoc, Nat.add_left_comm]

/-- StreamTokens is the per-response map of `respInvocation` together with the
count of successful responses. -/
lemma streamTokens_eq (batch : List Response) :
    TensorRtLlmBackendImpl.StreamTokens batch =
      ((batch.filter Response.isSuccess).length, batch.map respInvocation) := by
  simpa using foldl_streamTokensStep batch 0 []

lemma foldl_streamStep_nonfinal (toks : List Nat) (g : Nat) (cs : List Nat) :
    (toks.map (fun t => Response.result t false)).foldl
        TensorRtLlmBackend.streamStep (false, g, cs) =
      (false, g + toks.length, cs ++ toks) := by
  induction toks generalizing g cs with
  | nil => simp
  | cons t ts ih =>
    simp only [List.map_cons, List.foldl_cons, TensorRtLlmBackend.streamStep, ih]
    refine congrArg (fun p => (false, p)) ?_
    refine Prod.ext ?_ ?_
    · simp
      omega
    · simp

/-- Running the Stream loop from a non-final state over batches whose
concatenation is an error-free stream delivers every token in order and
terminates right after the final record. -/
lemma streamGo_success (batches : List (List Response)) :
    ∀ (toks : List Nat) (ft : Nat) (g : Nat) (cs : List Nat),
    batches.flatten = successStream toks ft →
    TensorRtLlmBackend.streamGo batches (false, g, cs) =
      some (g + toks.length + 1, cs ++ toks ++ [ft]) := by
  induction batches with
  | nil =>
    intro toks ft g cs h
    exfalso
    simp [successStream] at h
  | cons b rest ih =>
    intro toks ft g cs h
    simp only [List.flatten_cons, successStream] at h
    rcases List.append_eq_append_iff.mp h with ⟨mid, hmap, hrest⟩ | ⟨tail, hb, htail⟩
    · -- the first batch lies inside the non-final prefix
      rcases List.map_eq_append_iff.mp hmap with ⟨t1, t2, hts, hb, hmid⟩
      subst hts
      rw [TensorRtLlmBackend.streamGo, ← hb, foldl_streamStep_nonfinal]
      simp only [if_neg Bool.false_ne_true]
      have hr : rest.flatten = successStream t2 ft := by
        rw [hrest, ← hmid, successStream]
      rw [ih t2 ft (g + t1.length) (cs ++ t1) hr]
      simp only [Option.some.injEq, Prod.mk.injEq, List.length_append, List.append_assoc]
      exact ⟨by omega, trivial⟩
    · -- the first batch contains the final record
      cases tail with
      | nil =>
        -- the final record opens the flattened rest
        simp only [List.append_nil] at hb
        rw [TensorRtLlmBackend.streamGo, hb, foldl_streamStep_nonfinal]
        simp only [if_neg Bool.false_ne_true]
        have hr : rest.flatten = successStream ([] : List Nat) ft := by
          simp only [List.nil_append] at htail
          simp only [successStream, List.map_nil, List.nil_append]
          exact htail.symm
        rw [ih [] ft (g + toks.length) (cs ++ toks) hr]
        simp [List.append_assoc]
      | cons x xs =>
        rw [List.cons_append] at htail
        have h2 : x :: (xs ++ rest.flatten) = Response.result ft true :: ([] : List Response) :=
          htail.symm
        injection h2 with hx1 hx2
        have hxs : xs = [] := (List.append_eq_nil.mp hx2).1
        subst hx1
        subst hxs
        rw [TensorRtLlmBackend.streamGo, hb, List.foldl_append,
          foldl_streamStep_nonfinal]
        simp [TensorRtLlmBackend.streamStep, List.append_assoc]

/-- C1: the claim says constraint-violating calls are rejected before any
engine interaction. Refuted at a concrete input violating all four
constraints: the spec-modelled gateway rejects it, yet the code's Submit still
assembles and enqueues a request carrying the violating arguments verbatim. -/
theorem C1_counterexample :
    SubmitChecked [] (-1) 0 (3 / 2 : ℚ) 0 0 none none none none =
        Except.error SubmissionError.emptyTokens ∧
      (TensorRtLlmBackend.Submit [] (-1) 0 (3 / 2 : ℚ) 0 0 none none none none).tokens
        = [] ∧
      (TensorRtLlmBackend.Submit [] (-1) 0 (3 / 2 : ℚ) 0 0 none none none none).maxNewTokens
        = -1 :=
  ⟨rfl, rfl, rfl⟩

/-- C1 (amended): TensorRtLlmBackend::Submit performs no input validation:
every call whose arguments violate the spec constraints — which the
spec-modelled gateway would reject — still assembles the request with the
arguments verbatim and hands it to the engine. -/
theorem C1_no_validation (tokens : List Int) (maxNewTokens topK : Int)
    (topP temperature : ℚ) (minLength : Int)
    (repetitionPenalty frequencyPenalty : Option ℚ) (seed nTopTokens : Option Nat)
    (h : tokens = [] ∨ maxNewTokens ≤ 0 ∨ topP < 0 ∨ 1 < topP ∨ temperature ≤ 0) :
    isRejected (SubmitChecked tokens maxNewTokens topK topP temperature minLength
        repetitionPenalty frequencyPenalty seed nTopTokens) = true ∧
      (TensorRtLlmBackend.Submit tokens maxNewTokens topK topP temperature minLength
        repetitionPenalty frequencyPenalty seed nTopTokens).tokens = tokens ∧
      (TensorRtLlmBackend.Submit tokens maxNewTokens topK topP temperature minLength
        repetitionPenalty frequencyPenalty seed nTopTokens).maxNewTokens = maxNewTokens := by
  refine ⟨?_, rfl, rfl⟩
  unfold SubmitChecked
  split
  · rfl
  · split
    · rfl
    · split
      · rfl
      · split
        · rfl
        · rename_i h1 h2 h3 h4
          exfalso
          rcases h with hv | hv | hv | hv | hv
          · exact h1 hv
          · exact h2 hv
          · exact h3 (Or.inl hv)
          · exact h3 (Or.inr hv)
          · exact h4 hv

/-- Witness for C1 (amended) at a concrete violating input: empty token
sequence, all other parameters in range. -/
theorem C1_no_validation_witness :
    isRejected (SubmitChecked [] 5 0 (1 / 2 : ℚ) 1 0 none none none none) = true ∧
      (TensorRtLlmBackend.Submit [] 5 0 (1 / 2 : ℚ) 1 0 none none none none).tokens = [] ∧
      (TensorRtLlmBackend.Submit [] 5 0 (1 / 2 : ℚ) 1 0 none none none none).maxNewTokens
        = 5 :=
  C1_no_validation [] 5 0 (1 / 2 : ℚ) 1 0 none none none none (Or.inl rfl)

/-- C2: the claim says an error response yields exactly one sentinel callback
invocation and a terminal state with no further processing. Refuted: StreamTokens
on a polled batch of two error responses performs two sentinel invocations,
because the loop does not stop at the first error. -/
theorem C2_counterexample :
    TensorRtLlmBackendImpl.StreamTokens [Response.error "a", Response.error "b"] =
      (0, [CallbackInvocation.mk 0 0 true, CallbackInvocation.mk 0 0 true]) := rfl

/-- C2 (amended): each polled error response triggers one sentinel callback
invocation (tokenId 0, score 0.0, isFinal true), but StreamTokens keeps
processing the remaining responses of the same batch instead of stopping; the
call returns the count of non-error tokens delivered, which is 0 when every
response is an error. -/
theorem C2_error_sentinel (batch : List Response) :
    TensorRtLlmBackendImpl.StreamTokens batch =
        ((batch.filter Response.isSuccess).length, batch.map respInvocation) ∧
      (∀ msg, respInvocation (Response.error msg) = CallbackInvocation.mk 0 0 true) :=
  ⟨streamTokens_eq batch, fun _ => rfl⟩

/-- C3: on a stream of N successful non-final responses followed by one final
successful response, however the engine batches it, Stream invokes the callback
exactly N+1 times in arrival order and returns N+1; StreamTokens on such a
batch invokes the callback with isFinal false on the first N invocations and
isFinal true on the last. -/
theorem C3_stream_success (toks : List Nat) (ft : Nat) (batches : List (List Response))
    (h : batches.flatten = successStream toks ft) :
    TensorRtLlmBackend.Stream batches = some (toks.length + 1, toks ++ [ft]) ∧
      TensorRtLlmBackendImpl.StreamTokens (successStream toks ft) =
        (toks.length + 1,
          toks.map (fun t => CallbackInvocation.mk t 1 false) ++
            [CallbackInvocation.mk ft 1 true]) := by
  constructor
  · have hs := streamGo_success batches toks ft 0 [] h
    simpa [TensorRtLlmBackend.Stream] using hs
  · rw [streamTokens_eq]
    simp [successStream, List.filter_map, respInvocation, Response.isSuccess,
      Function.comp]

/-- Witness for C3 at a concrete stream: tokens 10, 11 then final token 12,
delivered in two batches. -/
theorem C3_stream_success_witness :
    TensorRtLlmBackend.Stream
        [[Response.result 10 false, Response.result 11 false], [Response.result 12 true]] =
        some (3, [10, 11, 12]) ∧
      TensorRtLlmBackendImpl.StreamTokens (successStream [10, 11] 12) =
        (3, [CallbackInvocation.mk 10 1 false, CallbackInvocation.mk 11 1 false,
          CallbackInvocation.mk 12 1 true]) := by
  have h := C3_stream_success [10, 11] 12
    [[Response.result 10 false, Response.result 11 false], [Response.result 12 true]] rfl
  simpa using h

/-- C4: the claim says every stream performs exactly one terminal callback
invocation. Refuted: the stream consisting of an error response followed by a
final decode record makes StreamTokens perform two invocations with isFinal
true. -/
theorem C4_counterexample :
    ((TensorRtLlmBackendImpl.StreamTokens
        [Response.error "oops", Response.result 7 true]).2.filter
        (fun c => c.isFinal)).length = 2 := rfl

/-- C4 (amended): the number of callback invocations with isFinal true that
StreamTokens performs on a polled batch equals the number of responses that are
errors or carry the final flag — possibly zero, possibly more than one; and
Stream performs no callback invocation at all for an error response, so a
stream consisting of one error terminates with zero invocations. -/
theorem C4_terminal_count (batch : List Response) :
    (((TensorRtLlmBackendImpl.StreamTokens batch).2.filter
        (fun c => c.isFinal)).length = (batch.filter Response.isTerminal).length) ∧
      (∀ msg, TensorRtLlmBackend.Stream [[Response.error msg]] = some (0, [])) := by
  constructor
  · rw [streamTokens_eq]
    simp only [List.filter_map, List.length_map]
    congr 1
    apply List.filter_congr
    intro r _
    cases r <;> simp [respInvocation, Response.isTerminal, Function.comp]
  · intro msg
    rfl

/-- C5: the claim says every world_size greater than 1 yields Orchestrator mode
with a non-empty worker path. Refuted twice at concrete inputs: world_size 257
(greater than 1) is read modulo 256 as 1 and selects Leader mode, and with a
caller-supplied empty worker path the produced orchestrator configuration
carries the empty path verbatim. -/
theorem C5_counterexample :
    (GetExecutorConfig (EngineJson.mk 257) "worker" none).parallelConfig.commMode =
        CommunicationMode.kLEADER ∧
      (GetExecutorConfig (EngineJson.mk 2) "" none).parallelConfig.orchestratorConfig =
        some (OrchestratorConfig.mk true "") :=
  ⟨rfl, rfl⟩

/-- C5 (amended): mode selection uses world_size reduced modulo 256: the
parallel configuration is the Leader one exactly when the reduced value is 1,
and otherwise the Orchestrator one carrying exactly the caller-supplied worker
path. -/
theorem C5_topology (ws : Nat) (wp : String) (cap : Option (Int × Int)) :
    (GetExecutorConfig (EngineJson.mk ws) wp cap).parallelConfig =
      (if readWorldSize (EngineJson.mk ws) = 1 then
        ParallelConfig.mk CommunicationType.kMPI CommunicationMode.kLEADER none none none
      else
        ParallelConfig.mk CommunicationType.kMPI CommunicationMode.kORCHESTRATOR none none
          (some (OrchestratorConfig.mk true wp))) := by
  by_cases h : readWorldSize (EngineJson.mk ws) = 1 <;>
    simp [GetExecutorConfig, h]

/-- C6: the chunked-context flag is the comparison of the detected
compute-capability major version against 8, and a failed detection leaves the
flag false (the configuration function is total, so configuration still
succeeds). -/
theorem C6_chunked_context (c : EngineJson) (wp : String) (M m : Int) :
    ((GetExecutorConfig c wp (some (M, m))).enableChunkedContext = decide (8 ≤ M)) ∧
      ((GetExecutorConfig c wp none).enableChunkedContext = false) := by
  constructor
  · simp [GetExecutorConfig, capabilityMajor]
  · simp [GetExecutorConfig, capabilityMajor]

/-- C7: the KV-cache configuration produced by GetExecutorConfig has the
enabled flag true, for every input. -/
theorem C7_kv_cache (c : EngineJson) (wp : String) (cap : Option (Int × Int)) :
    (GetExecutorConfig c wp cap).kvCacheConfig = KvCacheConfig.mk true := by
  simp [GetExecutorConfig]

/-- C8: the request enqueued by Submit has beam width fixed at 1,
log-probabilities and full output-ids disabled, and the per-step
top-alternatives flag set exactly when nTopTokens is present and greater
than 1. -/
theorem C8_request_assembly (tokens : List Int) (maxNewTokens topK : Int)
    (topP temperature : ℚ) (minLength : Int)
    (repetitionPenalty frequencyPenalty : Option ℚ) (seed nTopTokens : Option Nat) :
    ((TensorRtLlmBackend.Submit tokens maxNewTokens topK topP temperature minLength
        repetitionPenalty frequencyPenalty seed nTopTokens).samplingConfig.beamWidth = 1) ∧
      ((TensorRtLlmBackend.Submit tokens maxNewTokens topK topP temperature minLength
        repetitionPenalty frequencyPenalty seed nTopTokens).outputConfig.returnLogProbs = false) ∧
      ((TensorRtLlmBackend.Submit tokens maxNewTokens topK topP temperature minLength
        repetitionPenalty frequencyPenalty seed nTopTokens).outputConfig.returnFullOutputIds
        = false) ∧
      ((TensorRtLlmBackend.Submit tokens maxNewTokens topK topP temperature minLength
        repetitionPenalty frequencyPenalty seed nTopTokens).outputConfig.perStepTopAlternatives
        = true ↔ ∃ n, nTopTokens = some n ∧ 1 < n) := by
  refine ⟨rfl, rfl, rfl, ?_⟩
  unfold TensorRtLlmBackend.Submit
  cases nTopTokens with
  | none => simp
  | some n => simp

/-- C9: the world_size field is read as an unsigned 8-bit integer, so the
selected communication mode depends only on world_size modulo 256; at
world_size 256 the read value is 0 and Orchestrator mode is selected. -/
theorem C9_world_size_mod (ws : Nat) (wp : String) (cap : Option (Int × Int)) :
    ((GetExecutorConfig (EngineJson.mk ws) wp cap).parallelConfig.commMode =
        (GetExecutorConfig (EngineJson.mk (ws % 256)) wp cap).parallelConfig.commMode) ∧
      readWorldSize (EngineJson.mk 256) = 0 ∧
      (GetExecutorConfig (EngineJson.mk 256) wp cap).parallelConfig.commMode =
        CommunicationMode.kORCHESTRATOR := by
  refine ⟨?_, rfl, ?_⟩
  · by_cases h : ws % 256 = 1 <;>
      simp [GetExecutorConfig, readWorldSize, h]
  · simp [GetExecutorConfig, readWorldSize]

/-- C10: the FFI-level Submit forwards its five arguments positionally into the
ten-parameter Submit, so the enqueued request has maxNewTokens equal to the
caller's topK argument, topK equal to the caller's topP argument truncated to
an integer, topP equal to the caller's temperature argument and temperature
equal to the caller's seed argument, while the token sequence is forwarded
unchanged. -/
theorem C10_ffi_shift (d : SubmitDefaults) (tokens : List Int) (topK : Int)
    (topP temperature : ℚ) (seed : Nat) :
    ((TensorRtLlmBackendImpl.Submit d tokens topK topP temperature seed).maxNewTokens
        = topK) ∧
      ((TensorRtLlmBackendImpl.Submit d tokens topK topP temperature seed).samplingConfig.topK
        = some (floatToInt32 topP)) ∧
      ((TensorRtLlmBackendImpl.Submit d tokens topK topP temperature seed).samplingConfig.topP
        = some temperature) ∧
      ((TensorRtLlmBackendImpl.Submit d tokens topK topP temperature
        seed).samplingConfig.temperature = some ((seed : ℚ))) ∧
      ((TensorRtLlmBackendImpl.Submit d tokens topK topP temperature seed).tokens = tokens) :=
  ⟨rfl, rfl, rfl, rfl, rfl⟩
